import Mathlib

/-!
Shallow embedding of the webbundle builder module (src/builder.rs).

The module has two components: `Builder`, which accumulates bundle
metadata (version, primary url, manifest url) and a list of exchanges and
finalizes them into a `Bundle`; and `ExchangeBuilder`, which walks a
directory tree and converts each regular file into an exchange (a GET
request paired with a synthesized response).

External collaborators that live outside the excerpt (the url crate's
join, the mime_guess lookup, std::fs::read, the walkdir iterator and the
pathdiff relative-path computation) are abstracted as the fields of an
`Env` record; the builder code itself is translated function by function.
Bytes are modelled as lists of naturals, paths and URLs as strings.
-/

/-- Modelled from the spec: the bundle version enumeration. The concrete
type lives in bundle.rs, which is outside the excerpt; the spec only says
it is an enum, so two constructors mirroring the variants seen in the
tests suffice. -/
inductive Version where
  | version1
  | versionB1
deriving DecidableEq

/-- Byte sequences, as in std::fs::read results and response bodies. -/
abbrev Bytes := List Nat

/-- Kind of a filesystem entry, as reported by walkdir's file_type. -/
inductive FileType where
  | file
  | dir
  | symlink
deriving DecidableEq

/-- One entry yielded by the walkdir iterator: a path and its kind. -/
structure DirEntry where
  path : String
  file_type : FileType
deriving DecidableEq

/-- An HTTP request as built by Request::get(uri).body(()): method GET,
the given uri, empty body. -/
structure Request where
  method : String
  uri : String
deriving DecidableEq

/-- Request::get followed by .body(()): a GET request at the uri. -/
def Request.get (uri : String) : Request :=
  { method := "GET", uri := uri }

/-- An HTTP response: status code, headers in insertion order, body. -/
structure Response where
  status : Nat
  headers : List (String × String)
  body : Bytes
deriving DecidableEq

/-- One exchange: a request/response pair. -/
structure Exchange where
  request : Request
  response : Response
deriving DecidableEq

/-- The finalized bundle value, as in bundle.rs usage from builder.rs. -/
structure Bundle where
  version : Version
  primary_url : String
  manifest : Option String
  exchanges : List Exchange
deriving DecidableEq

/-- The external collaborators of builder.rs, abstracted as functions:
urlJoin is base_url.join(rel).to_string().parse() from the url and http
crates (fails only on malformed input); mimeGuess is
mime_guess::from_path(..).first() (none when the extension has no match);
fsRead is std::fs::read; walkEntries is the walkdir iterator over a base
directory (each item may be an error, as walkdir yields Results);
diffPaths is pathdiff::diff_paths(path, base). -/
structure Env where
  urlJoin : String → String → Except String String
  mimeGuess : String → Option String
  fsRead : String → Except String Bytes
  walkEntries : String → List (Except String DirEntry)
  diffPaths : String → String → String

/-- Path::is_relative on unix: the path does not start with a slash. -/
def is_relative (p : String) : Bool :=
  match p.data with
  | [] => true
  | c :: _ => c != '/'

/-- PathBuf::join: appending a relative component after a separator; an
absolute right-hand side replaces the base. -/
def path_join (base rel : String) : String :=
  if is_relative rel then base ++ "/" ++ rel else rel

/-- MimeGuess::first_or_octet_stream: the first guess, or the generic
application/octet-stream fallback when there is no match. -/
def first_or_octet_stream (guess : Option String) : String :=
  Option.getD guess ("application/octet-stream")

/-- The Builder struct of builder.rs: all fields default to empty. -/
structure Builder where
  version : Option Version := none
  primary_url : Option String := none
  manifest : Option String := none
  exchanges : List Exchange := []
deriving DecidableEq

/-- Builder::new, which is Default::default(). -/
def Builder.new : Builder := {}

/-- Builder::version (named set_version here because the field of the
same name occupies the source's method name): sets the version. -/
def Builder.set_version (b : Builder) (version : Version) : Builder :=
  { b with version := some version }

/-- Builder::primary_url setter: sets the primary url. -/
def Builder.set_primary_url (b : Builder) (primary_url : String) : Builder :=
  { b with primary_url := some primary_url }

/-- Builder::manifest setter: sets the manifest url. -/
def Builder.set_manifest (b : Builder) (manifest : String) : Builder :=
  { b with manifest := some manifest }

/-- Builder::exchange: pushes the exchange at the end of the list. -/
def Builder.add_exchange (b : Builder) (exchange : Exchange) : Builder :=
  { b with exchanges := b.exchanges ++ [exchange] }

/-- Builder::build: version and primary_url are required (checked in that
order, with the anyhow context strings of the source); manifest and
exchanges are passed through as accumulated. -/
def Builder.build (b : Builder) : Except String Bundle :=
  match b.version with
  | none => .error ("no version")
  | some v =>
    match b.primary_url with
    | none => .error ("no primary_url")
    | some u =>
      .ok { version := v, primary_url := u,
            manifest := b.manifest, exchanges := b.exchanges }

/-- The ExchangeBuilder struct of builder.rs. -/
structure ExchangeBuilder where
  base_url : String
  base_dir : String
  exchanges : List Exchange
deriving DecidableEq

/-- ExchangeBuilder::new: records the base directory and base url with an
empty exchange list. -/
def ExchangeBuilder.new (base_dir : String) (base_url : String) : ExchangeBuilder :=
  { base_dir := base_dir, base_url := base_url, exchanges := [] }

/-- ExchangeBuilder::url_from_relative_path: ensures the path is
relative, then joins it onto the base url (join, to_string and re-parse
are the urlJoin collaborator). -/
def ExchangeBuilder.url_from_relative_path (env : Env) (b : ExchangeBuilder)
    (relative_path : String) : Except String String :=
  if is_relative relative_path then
    env.urlJoin b.base_url relative_path
  else
    .error ("Path is not relative: " ++ relative_path)

/-- ExchangeBuilder::create_response: re-checks relativity, reads the file
at base_dir joined with the relative path, and produces an OK response
whose headers are the content-length (decimal byte count) and the
content-type guessed from the path, inserted in that order. -/
def ExchangeBuilder.create_response (env : Env) (b : ExchangeBuilder)
    (relative_path : String) : Except String Response :=
  if is_relative relative_path then
    match env.fsRead (path_join b.base_dir relative_path) with
    | .error e => .error e
    | .ok body =>
      .ok { status := 200,
            headers :=
              [("content-length", toString (body.length)),
               ("content-type",
                first_or_octet_stream
                  (env.mimeGuess (path_join b.base_dir relative_path)))],
            body := body }
  else
    .error ("Path is not relative: " ++ relative_path)

/-- ExchangeBuilder::exchange: builds the request from the relative path
and the response from the file contents, and pushes the pair at the end
of the exchange list; any failure propagates. -/
def ExchangeBuilder.exchange (env : Env) (b : ExchangeBuilder)
    (relative_path : String) : Except String ExchangeBuilder :=
  match b.url_from_relative_path env relative_path with
  | .error e => .error e
  | .ok uri =>
    match b.create_response env relative_path with
    | .error e => .error e
    | .ok response =>
      .ok { b with
            exchanges :=
              b.exchanges ++ [{ request := Request.get uri, response := response }] }

/-- Loop body of ExchangeBuilder::walk over the walkdir entries: a walkdir
error aborts immediately; a symlink is skipped with a warning pushed to
the log; a regular file is converted through exchange (whose failure also
aborts); a directory just continues. Returns the result together with the
warnings emitted so far. -/
def ExchangeBuilder.walkGo (env : Env) :
    List (Except String DirEntry) → ExchangeBuilder → List String →
      Except String ExchangeBuilder × List String
  | [], b, log => (.ok b, log)
  | .error e :: _, _, log => (.error e, log)
  | .ok entry :: rest, b, log =>
    match entry.file_type with
    | .symlink =>
      ExchangeBuilder.walkGo env rest b
        (log ++ ["path is symbolink link. Skipping. " ++ entry.path])
    | .file =>
      match b.exchange env (env.diffPaths entry.path b.base_dir) with
      | .error e => (.error e, log)
      | .ok b2 => ExchangeBuilder.walkGo env rest b2 log
    | .dir => ExchangeBuilder.walkGo env rest b log

/-- ExchangeBuilder::walk: folds walkGo over the walkdir entries of the
base directory, starting from an empty warning log. -/
def ExchangeBuilder.walk (env : Env) (b : ExchangeBuilder) :
    Except String ExchangeBuilder × List String :=
  ExchangeBuilder.walkGo env (env.walkEntries b.base_dir) b []

/-- ExchangeBuilder::build: returns the accumulated exchanges. -/
def ExchangeBuilder.build (b : ExchangeBuilder) : List Exchange :=
  b.exchanges

/-- Builder::exchanges_from_dir: runs a fresh ExchangeBuilder's walk over
the directory and appends the collected exchanges after the ones already
accumulated; a walk failure propagates and nothing is appended. The
warning log component goes to the logging collaborator and is dropped
here, as in the source. -/
def Builder.exchanges_from_dir (env : Env) (b : Builder)
    (dir : String) (base_url : String) : Except String Builder :=
  match (ExchangeBuilder.walk env (ExchangeBuilder.new dir base_url)).1 with
  | .error e => .error e
  | .ok eb => .ok { b with exchanges := b.exchanges ++ eb.build }

/-- A concrete collaborator record used by the concrete instances below:
joining is plain concatenation, no mime match ever succeeds, every read
returns the two bytes 104 105, the walkdir stream is empty and diffPaths
returns the path unchanged. -/
def envA : Env :=
  { urlJoin := fun base rel => .ok (base ++ rel),
    mimeGuess := fun _ => none,
    fsRead := fun _ => .ok [104, 105],
    walkEntries := fun _ => [],
    diffPaths := fun p _ => p }

/-- A collaborator record whose reads fail and whose walkdir stream
yields one error item, for exercising the failure paths. -/
def envB : Env :=
  { urlJoin := fun base rel => .ok (base ++ rel),
    mimeGuess := fun _ => none,
    fsRead := fun _ => .error ("boom"),
    walkEntries := fun _ => [.error ("ioerr")],
    diffPaths := fun p _ => p }

/-- A concrete exchange builder over base directory d and base url b/. -/
def ebA : ExchangeBuilder :=
  ExchangeBuilder.new ("d") ("b/")

/-- The response envA produces for any successfully read file with no
mime match: status 200, content-length 2, the octet-stream fallback, and
the two bytes of envA.fsRead. -/
def respA : Response :=
  { status := 200,
    headers := [("content-length", "2"), ("content-type", "application/octet-stream")],
    body := [104, 105] }

/-- A concrete exchange value. -/
def exA : Exchange :=
  { request := Request.get ("b/p"), response := respA }

/-- C1: when both version and primary_url are set, build succeeds and the
bundle carries exactly the accumulated version, primary_url, manifest and
exchanges; when version is absent it fails with the error naming version;
when version is present but primary_url is absent it fails with the error
naming primary_url; these three cases are exhaustive, so build fails for
no other reason. -/
theorem C1_build_requires_version_and_primary_url (b : Builder) :
    (∀ v u, b.version = some v → b.primary_url = some u →
      b.build = .ok { version := v, primary_url := u,
                      manifest := b.manifest, exchanges := b.exchanges }) ∧
    (b.version = none → b.build = .error ("no version")) ∧
    (b.version ≠ none → b.primary_url = none →
      b.build = .error ("no primary_url")) := by
  refine ⟨?_, ?_, ?_⟩
  · intro v u hv hu
    simp [Builder.build, hv, hu]
  · intro hv
    simp [Builder.build, hv]
  · intro hv hu
    cases hver : b.version with
    | none => exact absurd hver hv
    | some v => simp [Builder.build, hver, hu]

/-- Concrete instance of C1: a builder with both required fields builds
to exactly those fields, and one missing the version fails naming it. -/
theorem C1_build_requires_version_and_primary_url_witness :
    (Builder.build
        { version := some Version.version1, primary_url := some ("u"),
          manifest := none, exchanges := [] }
      = .ok { version := Version.version1, primary_url := "u",
              manifest := none, exchanges := [] }) ∧
    (Builder.build
        { version := none, primary_url := some ("u"),
          manifest := none, exchanges := [] }
      = .error ("no version")) := by
  constructor
  · exact (C1_build_requires_version_and_primary_url
      { version := some Version.version1, primary_url := some ("u"),
        manifest := none, exchanges := [] }).1 Version.version1 ("u") rfl rfl
  · exact (C1_build_requires_version_and_primary_url
      { version := none, primary_url := some ("u"),
        manifest := none, exchanges := [] }).2.1 rfl

/-- C9: each setter changes only its own field, a repeated call to the
same setter overwrites the previous value, and add_exchange only appends
at the end of the exchange list, leaving the other three fields as they
were. -/
theorem C9_setters_frame (b : Builder) (v v2 : Version) (u u2 m m2 : String)
    (ex : Exchange) :
    (b.set_version v = { b with version := some v }) ∧
    ((b.set_version v).set_version v2 = { b with version := some v2 }) ∧
    (b.set_primary_url u = { b with primary_url := some u }) ∧
    ((b.set_primary_url u).set_primary_url u2 = { b with primary_url := some u2 }) ∧
    (b.set_manifest m = { b with manifest := some m }) ∧
    ((b.set_manifest m).set_manifest m2 = { b with manifest := some m2 }) ∧
    (b.add_exchange ex = { b with exchanges := b.exchanges ++ [ex] }) :=
  ⟨rfl, rfl, rfl, rfl, rfl, rfl, rfl⟩

/-- C10: with both required fields absent, build reports the missing
version, because version is checked before primary_url. -/
theorem C10_version_checked_before_primary_url (m : Option String)
    (es : List Exchange) :
    Builder.build { version := none, primary_url := none,
                    manifest := m, exchanges := es }
      = .error ("no version") :=
  rfl

/-- C2: for a relative path whose join and response synthesis succeed,
exchange appends exactly one pair whose request is a GET at the join of
the base url and the path; for an absolute path it fails with the
invalid-path error and therefore produces no exchange. -/
theorem C2_exchange_request_url (env : Env) (b : ExchangeBuilder) (p : String) :
    (is_relative p = true →
      ∀ u resp, env.urlJoin b.base_url p = .ok u →
        ExchangeBuilder.create_response env b p = .ok resp →
        ExchangeBuilder.exchange env b p =
          .ok { b with
                exchanges :=
                  b.exchanges ++ [{ request := Request.get u, response := resp }] }) ∧
    (is_relative p = false →
      ExchangeBuilder.exchange env b p = .error ("Path is not relative: " ++ p)) := by
  constructor
  · intro hrel u resp hjoin hresp
    simp [ExchangeBuilder.exchange, ExchangeBuilder.url_from_relative_path,
      hrel, hjoin, hresp]
  · intro habs
    simp [ExchangeBuilder.exchange, ExchangeBuilder.url_from_relative_path, habs]

/-- Concrete instance of C2: with concatenation as the join collaborator,
exchanging the relative path p appends the GET at b/p, and the absolute
path /p fails with the invalid-path error. -/
theorem C2_exchange_request_url_witness :
    (ExchangeBuilder.exchange envA ebA ("p") =
      .ok { ebA with exchanges := ebA.exchanges ++ [exA] }) ∧
    (ExchangeBuilder.exchange envA ebA ("/p") =
      .error ("Path is not relative: " ++ "/p")) := by
  constructor
  · exact (C2_exchange_request_url envA ebA ("p")).1 (by decide) ("b/p") respA
      rfl rfl
  · exact (C2_exchange_request_url envA ebA ("/p")).2 (by decide)

/-- C3: when the read of the file at the joined path succeeds, the
response exists, its body is exactly the bytes read, and its
content-length header is the decimal byte count of that body. -/
theorem C3_response_body_roundtrip (env : Env) (b : ExchangeBuilder)
    (p : String) (bytes : Bytes)
    (hrel : is_relative p = true)
    (hread : env.fsRead (path_join b.base_dir p) = .ok bytes) :
    ∃ resp, ExchangeBuilder.create_response env b p = .ok resp ∧
      resp.body = bytes ∧
      List.lookup ("content-length") resp.headers
        = some (toString (bytes.length)) := by
  refine ⟨{ status := 200,
            headers :=
              [("content-length", toString (bytes.length)),
               ("content-type",
                first_or_octet_stream (env.mimeGuess (path_join b.base_dir p)))],
            body := bytes }, ?_, rfl, ?_⟩
  · simp [ExchangeBuilder.create_response, hrel, hread]
  · simp [List.lookup]

/-- Concrete instance of C3: the two-byte read of envA yields a response
with that body and content-length 2. -/
theorem C3_response_body_roundtrip_witness :
    ∃ resp, ExchangeBuilder.create_response envA ebA ("p") = .ok resp ∧
      resp.body = [104, 105] ∧
      List.lookup ("content-length") resp.headers
        = some (toString (List.length ([104, 105] : Bytes))) :=
  C3_response_body_roundtrip envA ebA ("p") ([104, 105]) (by decide) rfl

/-- C6: every successfully synthesized response has status OK and exactly
two headers, in insertion order the content-length (equal to the body's
decimal byte count) and then the content-type guessed from the joined
path's extension; when the guess has no match the content-type is the
application/octet-stream fallback. -/
theorem C6_response_status_and_headers (env : Env) (b : ExchangeBuilder)
    (p : String) (resp : Response)
    (h : ExchangeBuilder.create_response env b p = .ok resp) :
    resp.status = 200 ∧
    resp.headers =
      [("content-length", toString (resp.body.length)),
       ("content-type",
        first_or_octet_stream (env.mimeGuess (path_join b.base_dir p)))] ∧
    (env.mimeGuess (path_join b.base_dir p) = none →
      List.lookup ("content-type") resp.headers
        = some ("application/octet-stream")) := by
  unfold ExchangeBuilder.create_response at h
  by_cases hrel : is_relative p = true
  · rw [if_pos hrel] at h
    cases hread : env.fsRead (path_join b.base_dir p) with
    | error e => rw [hread] at h; exact absurd h (by simp)
    | ok body =>
      rw [hread] at h
      cases h
      refine ⟨rfl, rfl, ?_⟩
      intro hnone
      simp [List.lookup, first_or_octet_stream, hnone]
  · rw [if_neg hrel] at h
    exact absurd h (by simp)

/-- Concrete instance of C6: the response envA synthesizes has status
200, the two headers in order, and the octet-stream fallback. -/
theorem C6_response_status_and_headers_witness :
    respA.status = 200 ∧
    respA.headers =
      [("content-length", toString (respA.body.length)),
       ("content-type",
        first_or_octet_stream (envA.mimeGuess (path_join ebA.base_dir ("p"))))] ∧
    (envA.mimeGuess (path_join ebA.base_dir ("p")) = none →
      List.lookup ("content-type") respA.headers
        = some ("application/octet-stream")) :=
  C6_response_status_and_headers envA ebA ("p") respA rfl

/-- C8: the relative-path validation rejects only absolute paths: every
path beginning with a parent-directory segment is relative, and for every
relative path (parent segments included) url_from_relative_path is
exactly the url join of the base url and the path, with no further check
or rewriting before the join. -/
theorem C8_parent_segments_not_rejected (env : Env) (b : ExchangeBuilder)
    (p : String) :
    (∀ q : String, is_relative ("../" ++ q) = true) ∧
    (is_relative p = true →
      ExchangeBuilder.url_from_relative_path env b p = env.urlJoin b.base_url p) := by
  constructor
  · intro q
    simp [is_relative]
  · intro hrel
    simp [ExchangeBuilder.url_from_relative_path, hrel]

/-- Concrete instance of C8: the path ../secret is relative and is joined
onto the base url unchanged, escaping the base prefix under the
concatenation join of envA. -/
theorem C8_parent_segments_not_rejected_witness :
    (is_relative ("../" ++ "secret") = true) ∧
    (ExchangeBuilder.url_from_relative_path envA ebA ("../secret")
      = envA.urlJoin ebA.base_url ("../secret")) := by
  constructor
  · exact (C8_parent_segments_not_rejected envA ebA ("../secret")).1 ("secret")
  · exact (C8_parent_segments_not_rejected envA ebA ("../secret")).2 (by decide)

/-- C4: a symlink entry produces nothing: the walk step over it leaves
the builder state untouched, pushes the warning for that path onto the
log, and continues with the remaining entries. -/
theorem C4_symlink_skipped_with_warning (env : Env) (entry : DirEntry)
    (rest : List (Except String DirEntry)) (b : ExchangeBuilder)
    (log : List String)
    (h : entry.file_type = FileType.symlink) :
    ExchangeBuilder.walkGo env (.ok entry :: rest) b log =
      ExchangeBuilder.walkGo env rest b
        (log ++ ["path is symbolink link. Skipping. " ++ entry.path]) := by
  obtain ⟨path, ft⟩ := entry
  cases h
  rfl

/-- Concrete instance of C4: a lone symlink entry yields the unchanged
builder and one warning naming its path. -/
theorem C4_symlink_skipped_with_warning_witness :
    ExchangeBuilder.walkGo envA
        [.ok { path := "s", file_type := FileType.symlink }] ebA [] =
      ExchangeBuilder.walkGo envA [] ebA
        ([] ++ ["path is symbolink link. Skipping. " ++ "s"]) :=
  C4_symlink_skipped_with_warning envA
    { path := "s", file_type := FileType.symlink } [] ebA [] rfl

/-- C5: a walkdir error entry aborts the whole walk at once, ignoring
every later entry; a file entry whose per-file processing fails aborts
the walk with that error; and a failed walk makes exchanges_from_dir
return the error, so no entry at all is appended to the builder. -/
theorem C5_first_failure_aborts_traversal (env : Env) (b : ExchangeBuilder)
    (bb : Builder) (entry : DirEntry) (e : String)
    (rest : List (Except String DirEntry)) (log : List String)
    (dir base_url : String) :
    (ExchangeBuilder.walkGo env (.error e :: rest) b log = (.error e, log)) ∧
    (entry.file_type = FileType.file →
      ExchangeBuilder.exchange env b (env.diffPaths entry.path b.base_dir)
        = .error e →
      ExchangeBuilder.walkGo env (.ok entry :: rest) b log = (.error e, log)) ∧
    ((ExchangeBuilder.walk env (ExchangeBuilder.new dir base_url)).1 = .error e →
      Builder.exchanges_from_dir env bb dir base_url = .error e) := by
  refine ⟨rfl, ?_, ?_⟩
  · intro hft hfail
    obtain ⟨path, ft⟩ := entry
    cases hft
    simp only [ExchangeBuilder.walkGo]
    rw [hfail]
  · intro hwalk
    simp [Builder.exchanges_from_dir, hwalk]

/-- Concrete instance of C5: with envB a walkdir error item aborts, a
failing file read aborts with the read error, and exchanges_from_dir
propagates the walk failure. -/
theorem C5_first_failure_aborts_traversal_witness :
    (ExchangeBuilder.walkGo envB [.error ("ioerr")] ebA [] =
      (.error ("ioerr"), [])) ∧
    (ExchangeBuilder.walkGo envB
        [.ok { path := "d/p", file_type := FileType.file }] ebA [] =
      (.error ("boom"), [])) ∧
    (Builder.exchanges_from_dir envB Builder.new ("d") ("b/") =
      .error ("ioerr")) := by
  refine ⟨?_, ?_, ?_⟩
  · exact (C5_first_failure_aborts_traversal envB ebA Builder.new
      { path := "d/p", file_type := FileType.file } ("ioerr") [] [] ("d")
      ("b/")).1
  · exact (C5_first_failure_aborts_traversal envB ebA Builder.new
      { path := "d/p", file_type := FileType.file } ("boom") [] [] ("d")
      ("b/")).2.1 rfl rfl
  · exact (C5_first_failure_aborts_traversal envB ebA Builder.new
      { path := "d/p", file_type := FileType.file } ("ioerr") [] [] ("d")
      ("b/")).2.2 rfl

/-- Helper: a successful walk only ever appends to the exchange list it
started from; the entries it appends stay in traversal order after the
existing block. -/
theorem walkGo_appends (env : Env) :
    ∀ (entries : List (Except String DirEntry)) (b b2 : ExchangeBuilder)
      (log : List String),
      (ExchangeBuilder.walkGo env entries b log).1 = .ok b2 →
      ∃ tail, b2.exchanges = b.exchanges ++ tail := by
  intro entries
  induction entries with
  | nil =>
    intro b b2 log h
    cases h
    exact ⟨[], (List.append_nil _).symm⟩
  | cons item rest ih =>
    intro b b2 log h
    cases item with
    | error e => exact absurd h (by simp [ExchangeBuilder.walkGo])
    | ok entry =>
      obtain ⟨path, ft⟩ := entry
      cases ft with
      | symlink => exact ih b b2 _ h
      | dir => exact ih b b2 log h
      | file =>
        simp only [ExchangeBuilder.walkGo] at h
        cases hex : ExchangeBuilder.exchange env b (env.diffPaths path b.base_dir) with
        | error e => rw [hex] at h; exact absurd h (by simp)
        | ok bmid =>
          rw [hex] at h
          obtain ⟨tail, htail⟩ := ih bmid b2 log h
          unfold ExchangeBuilder.exchange at hex
          cases hurl : ExchangeBuilder.url_from_relative_path env b
              (env.diffPaths path b.base_dir) with
          | error e => rw [hurl] at hex; exact absurd hex (by simp)
          | ok uri =>
            rw [hurl] at hex
            cases hresp : ExchangeBuilder.create_response env b
                (env.diffPaths path b.base_dir) with
            | error e => rw [hresp] at hex; exact absurd hex (by simp)
            | ok response =>
              rw [hresp] at hex
              cases hex
              refine ⟨{ request := Request.get uri, response := response } :: tail, ?_⟩
              rw [htail]
              simp

/-- C7: order is insertion order throughout: add_exchange appends at the
end; the per-file exchange operation appends exactly one entry at the
end; a successful exchanges_from_dir keeps every previously accumulated
entry in place and appends the collector's entries after them; and build
returns the exchange list exactly as accumulated, unreordered. -/
theorem C7_insertion_order_preserved (env : Env) (bb : Builder) (ex : Exchange)
    (dir base_url : String) :
    ((bb.add_exchange ex).exchanges = bb.exchanges ++ [ex]) ∧
    (∀ (eb eb2 : ExchangeBuilder) (p : String),
      ExchangeBuilder.exchange env eb p = .ok eb2 →
      ∃ x, eb2.exchanges = eb.exchanges ++ [x]) ∧
    (∀ bb2, Builder.exchanges_from_dir env bb dir base_url = .ok bb2 →
      ∃ eb, (ExchangeBuilder.walk env (ExchangeBuilder.new dir base_url)).1
              = .ok eb ∧
        bb2.exchanges = bb.exchanges ++ eb.build) ∧
    (∀ bundle, bb.build = .ok bundle → bundle.exchanges = bb.exchanges) := by
  refine ⟨rfl, ?_, ?_, ?_⟩
  · intro eb eb2 p hex
    unfold ExchangeBuilder.exchange at hex
    cases hurl : ExchangeBuilder.url_from_relative_path env eb p with
    | error e => rw [hurl] at hex; exact absurd hex (by simp)
    | ok uri =>
      rw [hurl] at hex
      cases hresp : ExchangeBuilder.create_response env eb p with
      | error e => rw [hresp] at hex; exact absurd hex (by simp)
      | ok response =>
        rw [hresp] at hex
        cases hex
        exact ⟨{ request := Request.get uri, response := response }, rfl⟩
  · intro bb2 h
    unfold Builder.exchanges_from_dir at h
    cases hwalk : (ExchangeBuilder.walk env (ExchangeBuilder.new dir base_url)).1 with
    | error e => rw [hwalk] at h; exact absurd h (by simp)
    | ok eb =>
      rw [hwalk] at h
      cases h
      exact ⟨eb, rfl, rfl⟩
  · intro bundle h
    unfold Builder.build at h
    cases hv : bb.version with
    | none => rw [hv] at h; exact absurd h (by simp)
    | some v =>
      rw [hv] at h
      cases hu : bb.primary_url with
      | none => rw [hu] at h; exact absurd h (by simp)
      | some u =>
        rw [hu] at h
        cases h
        rfl

/-- Concrete instance of C7: appending to a fresh builder puts the entry
at the end, a successful per-file exchange appends one entry, a
successful directory expansion appends the collector's list, and build
returns the exchanges unchanged. -/
theorem C7_insertion_order_preserved_witness :
    ((Builder.new.add_exchange exA).exchanges = Builder.new.exchanges ++ [exA]) ∧
    (∃ x, (({ ebA with exchanges := ebA.exchanges ++ [exA] }) : ExchangeBuilder).exchanges
        = ebA.exchanges ++ [x]) ∧
    (∃ eb, (ExchangeBuilder.walk envA (ExchangeBuilder.new ("d") ("b/"))).1
        = .ok eb ∧
      (Builder.new : Builder).exchanges = Builder.new.exchanges ++ eb.build) ∧
    (Bundle.exchanges { version := Version.version1, primary_url := "u",
                        manifest := none, exchanges := [exA] }
      = Builder.exchanges { version := some Version.version1,
                            primary_url := some ("u"), manifest := none,
                            exchanges := [exA] }) := by
  refine ⟨?_, ?_, ?_, ?_⟩
  · exact (C7_insertion_order_preserved envA Builder.new exA ("d") ("b/")).1
  · exact (C7_insertion_order_preserved envA Builder.new exA ("d") ("b/")).2.1
      ebA { ebA with exchanges := ebA.exchanges ++ [exA] } ("p") rfl
  · exact (C7_insertion_order_preserved envA Builder.new exA ("d") ("b/")).2.2.1
      Builder.new rfl
  · exact (C7_insertion_order_preserved envA
      { version := some Version.version1, primary_url := some ("u"),
        manifest := none, exchanges := [exA] } exA ("d") ("b/")).2.2.2
      { version := Version.version1, primary_url := "u", manifest := none,
        exchanges := [exA] } rfl
